import Mathlib

/-!
Shallow embedding of the BubblePopper game core (src/GameScreen.js and the
unnamed near-duplicate screen variant).

The state of the React component is modelled as one structure `GameState`
holding the reactive state (`gameStarted`, `gameOver`, `score`, `timeLeft`,
`bubbles`, `laserVisible`, `gunPosition`) together with the ref cells of the
component (`tapStartTime`, `tapStartX`, `bubbleId` for `bubbleIdRef`, and the
timer refs).  JavaScript timers are modelled explicitly: `setInterval` draws a
fresh id from `nextTimerId` and records the id (tagged with what the interval
runs) in `intervals`; `clearInterval i` removes id `i`; `setTimeout` for the
laser flash records its id in `pendingTimeouts`.  A periodic callback firing is
modelled as a function that applies the callback body only when the interval it
belongs to is still scheduled.  Screen geometry (`W` = screenWidth,
`H` = screenHeight) and the value `r` of `Math.random()` are passed as
parameters; pixel coordinates are rationals, timestamps are integers.
-/

/-- A bubble object as created by `spawnBubble`. -/
structure Bubble where
  id : Nat
  x : ℚ
  y : ℚ
  radius : ℚ
deriving DecidableEq

/-- What a scheduled `setInterval` timer runs: the countdown tick or the
bubble spawner.  (The motion interval is managed by a React effect and is
modelled separately, see `motionFire`.) -/
inductive TimerKind where
  | countdown
  | spawn
deriving DecidableEq

/-- The whole component state: reactive state plus ref cells plus the
modelled timer environment. -/
structure GameState where
  gameStarted : Bool
  gameOver : Bool
  score : Nat
  timeLeft : Nat
  bubbles : List Bubble
  laserVisible : Bool
  gunPosition : ℚ
  tapStartTime : Int
  tapStartX : ℚ
  bubbleId : Nat
  nextTimerId : Nat
  intervals : List (Nat × TimerKind)
  pendingTimeouts : List Nat
  timerRef : Option Nat
  bubbleTimerRef : Option Nat
  laserTimeoutRef : Option Nat
deriving DecidableEq

/-- `const gunWidth = 60`. -/
def gunWidth : ℚ := 60

/-- `const TAP_MAX_DURATION = 200` (milliseconds). -/
def TAP_MAX_DURATION : Int := 200

/-- `const TAP_MAX_MOVEMENT = 10` (pixels). -/
def TAP_MAX_MOVEMENT : ℚ := 10

/-- The initial component state: all `useState` initial values
(`gameStarted = false`, `gameOver = false`, `score = 0`, `timeLeft = 120`,
`bubbles = []`, `laserVisible = false`,
`gunPosition = screenWidth / 2 - gunWidth / 2`) and all `useRef` initial
values (`bubbleIdRef = 1`, timer refs null). -/
def initialState (W : ℚ) : GameState :=
  { gameStarted := false
    gameOver := false
    score := 0
    timeLeft := 120
    bubbles := []
    laserVisible := false
    gunPosition := W / 2 - gunWidth / 2
    tapStartTime := 0
    tapStartX := 0
    bubbleId := 1
    nextTimerId := 0
    intervals := []
    pendingTimeouts := []
    timerRef := none
    bubbleTimerRef := none
    laserTimeoutRef := none }

/-- `const gunCenterX = gunPosition + gunWidth / 2`. -/
def gunCenterX (s : GameState) : ℚ :=
  s.gunPosition + gunWidth / 2

/-- The hit test of `checkHits`: with `bubbleCenterX = bubble.x + bubble.radius`,
a bubble is hit when `Math.abs(bubbleCenterX - laserX) <= bubble.radius`. -/
def isHit (laserX : ℚ) (b : Bubble) : Bool :=
  decide (|b.x + b.radius - laserX| ≤ b.radius)

/-- `checkHits(laserX)`: collect the ids of the hit bubbles (`hitBubbleIds`)
and their count (`hitCount`); if `hitCount > 0` add it to the score; keep only
the bubbles whose id is not among `hitBubbleIds`. -/
def checkHits (laserX : ℚ) (s : GameState) : GameState :=
  let hitBubbleIds := (s.bubbles.filter (isHit laserX)).map Bubble.id
  let hitCount := hitBubbleIds.length
  { s with
    score := if hitCount > 0 then s.score + hitCount else s.score
    bubbles := s.bubbles.filter (fun b => !(hitBubbleIds.contains b.id)) }

/-- `if (laserTimeoutRef.current) clearTimeout(laserTimeoutRef.current)`:
remove the pending timeout whose id the ref holds; a null ref clears
nothing. -/
def eraseRef (r : Option Nat) (l : List Nat) : List Nat :=
  match r with
  | none => l
  | some i => l.erase i

/-- `fireLaser()`: clear a pending laser-hide timeout if there is one, set the
laser visible, run `checkHits(gunCenterX)`, and schedule a fresh laser-hide
timeout (300 ms), storing its id in `laserTimeoutRef`. -/
def fireLaser (s : GameState) : GameState :=
  let s1 := { s with pendingTimeouts := eraseRef s.laserTimeoutRef s.pendingTimeouts }
  let s2 := { s1 with laserVisible := true }
  let s3 := checkHits (gunCenterX s2) s2
  { s3 with
    pendingTimeouts := s3.pendingTimeouts ++ [s3.nextTimerId]
    laserTimeoutRef := some s3.nextTimerId
    nextTimerId := s3.nextTimerId + 1 }

/-- `handleTap()`: `if (!gameStarted || gameOver) return; fireLaser();`.
The boolean of the pair records whether `fireLaser` was invoked. -/
def handleTap (s : GameState) : GameState × Bool :=
  if !s.gameStarted || s.gameOver then (s, false) else (fireLaser s, true)

/-- `spawnBubble()` with `r` the value drawn from `Math.random()`:
`radius = 30`, `maxX = screenWidth - radius * 2`, append
`{ id: bubbleIdRef.current++, x: r * maxX, y: screenHeight - 100, radius }`. -/
def spawnBubble (W H r : ℚ) (s : GameState) : GameState :=
  let radius : ℚ := 30
  let maxX := W - radius * 2
  { s with
    bubbles := s.bubbles ++ [{ id := s.bubbleId, x := r * maxX, y := H - 100, radius := radius }]
    bubbleId := s.bubbleId + 1 }

/-- `startGame()`: reset the reactive state for a new round
(`gameStarted = true`, `gameOver = false`, `score = 0`, `timeLeft = 120`,
`bubbles = []`, `laserVisible = false`, `bubbleIdRef = 1`), then
`bubbleTimerRef = setInterval(spawnBubble, 500)` and
`timerRef = setInterval(countdown body, 1000)`.  The previously scheduled
intervals are not cleared; the refs are simply overwritten. -/
def startGame (s : GameState) : GameState :=
  let bid := s.nextTimerId
  let tid := s.nextTimerId + 1
  { s with
    gameStarted := true
    gameOver := false
    score := 0
    timeLeft := 120
    bubbles := []
    laserVisible := false
    bubbleId := 1
    intervals := s.intervals ++ [(bid, TimerKind.spawn), (tid, TimerKind.countdown)]
    bubbleTimerRef := some bid
    timerRef := some tid
    nextTimerId := s.nextTimerId + 2 }

/-- `clearInterval` applied to the id held in a ref: removes every scheduled
interval with that id; a null ref clears nothing. -/
def clearRef (r : Option Nat) (l : List (Nat × TimerKind)) : List (Nat × TimerKind) :=
  match r with
  | none => l
  | some i => l.filter (fun p => p.1 != i)

/-- `resetGame()`: back to the initial reactive state
(`gameStarted = false`, `gameOver = false`, `bubbles = []`, `score = 0`,
`timeLeft = 120`, `laserVisible = false`, `bubbleIdRef = 1`) and
`clearInterval` on `timerRef` and `bubbleTimerRef`.  The gun position and the
laser-hide timeout are not touched. -/
def resetGame (s : GameState) : GameState :=
  { s with
    gameStarted := false
    gameOver := false
    bubbles := []
    score := 0
    timeLeft := 120
    laserVisible := false
    bubbleId := 1
    intervals := clearRef s.bubbleTimerRef (clearRef s.timerRef s.intervals) }

/-- The body of the countdown interval callback:
`setTimeLeft(prev => { if (prev <= 1) { clearInterval(timerRef);
clearInterval(bubbleTimerRef); setGameOver(true); return 0; }
return prev - 1; })`. -/
def countdownBody (s : GameState) : GameState :=
  if s.timeLeft ≤ 1 then
    { s with
      timeLeft := 0
      gameOver := true
      intervals := clearRef s.bubbleTimerRef (clearRef s.timerRef s.intervals) }
  else
    { s with timeLeft := s.timeLeft - 1 }

/-- A firing of the countdown interval referenced by `timerRef`: the body runs
only while that interval is still scheduled. -/
def countdownTick (s : GameState) : GameState :=
  match s.timerRef with
  | some i => if (i, TimerKind.countdown) ∈ s.intervals then countdownBody s else s
  | none => s

/-- A firing of the spawn interval referenced by `bubbleTimerRef`: runs
`spawnBubble` only while that interval is still scheduled. -/
def spawnTick (W H r : ℚ) (s : GameState) : GameState :=
  match s.bubbleTimerRef with
  | some i => if (i, TimerKind.spawn) ∈ s.intervals then spawnBubble W H r s else s
  | none => s

/-- The updater of the motion interval:
`prev.map(b => ({ ...b, y: b.y - 2 })).filter(b => b.y > -60)`. -/
def moveBubbles (bs : List Bubble) : List Bubble :=
  (bs.map (fun b => { b with y := b.y - 2 })).filter (fun b => decide (b.y > -60))

/-- A firing of the motion interval.  The interval is installed by a React
effect that runs only while `gameStarted && !gameOver` and is cleared by the
effect cleanup the moment that condition changes, so a motion tick has an
effect exactly while the game is running. -/
def motionFire (s : GameState) : GameState :=
  if s.gameStarted && !s.gameOver then { s with bubbles := moveBubbles s.bubbles } else s

/-- A firing of the laser-hide timeout with id `i`: if that timeout is still
pending it runs `setLaserVisible(false)` and is consumed. -/
def laserTimeoutFire (i : Nat) (s : GameState) : GameState :=
  if i ∈ s.pendingTimeouts then
    { s with laserVisible := false, pendingTimeouts := s.pendingTimeouts.erase i }
  else s

/-- `Math.max(0, Math.min(newX, screenWidth - gunWidth))`. -/
def clampGun (W : ℚ) (newX : ℚ) : ℚ :=
  max 0 (min newX (W - gunWidth))

/-- `onPanResponderGrant`: record `tapStartTime = Date.now()` and
`tapStartX = gestureState.x0`, then move the gun so its centre is at `x0`,
clamped to the screen. -/
def panGrant (W : ℚ) (x0 : ℚ) (now : Int) (s : GameState) : GameState :=
  { s with
    tapStartTime := now
    tapStartX := x0
    gunPosition := clampGun W (x0 - gunWidth / 2) }

/-- `onPanResponderMove`: move the gun so its centre is at
`gestureState.moveX`, clamped to the screen. -/
def panMove (W : ℚ) (moveX : ℚ) (s : GameState) : GameState :=
  { s with gunPosition := clampGun W (moveX - gunWidth / 2) }

/-- `onPanResponderRelease`: compute `tapDuration = Date.now() - tapStartTime`
and `moveDistance = Math.abs(gestureState.moveX - tapStartX)`; when both are
under the tap thresholds, run `handleTap`.  The boolean records whether
`fireLaser` was invoked. -/
def panRelease (moveX : ℚ) (now : Int) (s : GameState) : GameState × Bool :=
  let tapDuration := now - s.tapStartTime
  let moveDistance := |moveX - s.tapStartX|
  if tapDuration < TAP_MAX_DURATION ∧ moveDistance < TAP_MAX_MOVEMENT then
    handleTap s
  else (s, false)

/-- A sequence of `onPanResponderMove` events. -/
def applyMoves (W : ℚ) (ms : List ℚ) (s : GameState) : GameState :=
  ms.foldl (fun t m => panMove W m t) s

/-- Every event that can reach the component state: the three gesture
callbacks, the two buttons, the firings of the three intervals and of the
laser-hide timeout, and a direct tap on the gun. -/
inductive GEvent where
  | grantE (x0 : ℚ) (t : Int)
  | moveE (x : ℚ)
  | releaseE (x : ℚ) (t : Int)
  | startE
  | resetE
  | tapE
  | countdownE
  | spawnE (r : ℚ)
  | motionE
  | laserHideE (i : Nat)

/-- One step of the whole component: dispatch an event to its handler. -/
def step (W H : ℚ) (e : GEvent) (s : GameState) : GameState :=
  match e with
  | .grantE x0 t => panGrant W x0 t s
  | .moveE x => panMove W x s
  | .releaseE x t => (panRelease x t s).1
  | .startE => startGame s
  | .resetE => resetGame s
  | .tapE => (handleTap s).1
  | .countdownE => countdownTick s
  | .spawnE r => spawnTick W H r s
  | .motionE => motionFire s
  | .laserHideE i => laserTimeoutFire i s

/-- A concrete state for the hit-detection witnesses: two bubbles, as in the
spec's own test vector. -/
def hitTestState : GameState :=
  { initialState 400 with
    gameStarted := true
    bubbles := [⟨1, 0, 300, 30⟩, ⟨2, 100, 300, 30⟩] }

/-- A concrete running state reached by an actual round:
start, then one laser shot (which leaves a pending laser-hide timeout). -/
def firedState : GameState :=
  fireLaser (startGame (initialState 400))

/-- A concrete state with a stray scheduled interval and no timer refs. -/
def strayIntervalState : GameState :=
  { initialState 400 with intervals := [(5, TimerKind.spawn)] }

/-- A concrete running state with one bubble, for the motion witness. -/
def motionTestState : GameState :=
  { initialState 400 with gameStarted := true, bubbles := [⟨1, 50, 100, 30⟩] }

/-- A concrete state on a gun-wide screen with the gun at the left edge. -/
def gunWitState : GameState :=
  { initialState 60 with gunPosition := 0 }

/-! ## Lemmas about hit detection -/

/-- The hit-id list collects exactly the ids of the hit bubbles: when the ids
of the live bubbles are distinct, a bubble's id is on the list iff the bubble
itself passes the hit test. -/
lemma hitIds_contains_iff (laserX : ℚ) (s : GameState)
    (h : (s.bubbles.map Bubble.id).Nodup) (b : Bubble) (hb : b ∈ s.bubbles) :
    (((s.bubbles.filter (isHit laserX)).map Bubble.id).contains b.id) = isHit laserX b := by
  cases hHit : isHit laserX b with
  | true =>
    exact List.elem_eq_true_of_mem
      (List.mem_map_of_mem _ (List.mem_filter.2 ⟨hb, hHit⟩))
  | false =>
    cases hc : (((s.bubbles.filter (isHit laserX)).map Bubble.id).contains b.id) with
    | false => rfl
    | true =>
      exfalso
      obtain ⟨c, hc1, hc2⟩ := List.mem_map.1 (List.mem_of_elem_eq_true hc)
      obtain ⟨hcs, hcHit⟩ := List.mem_filter.1 hc1
      have : c = b := List.inj_on_of_nodup_map h hcs hb hc2
      rw [this] at hcHit
      rw [hcHit] at hHit
      exact absurd hHit (by decide)

/-- The bubble collection after `checkHits`: exactly the non-hit bubbles
survive, in their original order, provided the live bubbles have distinct
ids. -/
lemma checkHits_bubbles (laserX : ℚ) (s : GameState)
    (h : (s.bubbles.map Bubble.id).Nodup) :
    (checkHits laserX s).bubbles = s.bubbles.filter (fun b => !(isHit laserX b)) := by
  show s.bubbles.filter _ = s.bubbles.filter _
  apply List.filter_congr
  intro b hb
  rw [hitIds_contains_iff laserX s h b hb]

/-- The score after `checkHits`: the previous score plus the number of hit
bubbles (the `hitCount > 0` guard changes nothing when the count is zero). -/
lemma checkHits_score (laserX : ℚ) (s : GameState) :
    (checkHits laserX s).score = s.score + (s.bubbles.filter (isHit laserX)).length := by
  show (if ((s.bubbles.filter (isHit laserX)).map Bubble.id).length > 0
        then s.score + ((s.bubbles.filter (isHit laserX)).map Bubble.id).length
        else s.score) = _
  rw [List.length_map]
  split <;> omega

/-- `fireLaser` acts on the bubbles exactly as `checkHits` at the gun centre
does. -/
lemma fireLaser_bubbles (s : GameState) (h : (s.bubbles.map Bubble.id).Nodup) :
    (fireLaser s).bubbles = s.bubbles.filter (fun b => !(isHit (gunCenterX s) b)) :=
  checkHits_bubbles (gunCenterX s) s h

/-- `fireLaser` adds the number of hit bubbles to the score. -/
lemma fireLaser_score (s : GameState) :
    (fireLaser s).score = s.score + (s.bubbles.filter (isHit (gunCenterX s))).length :=
  checkHits_score (gunCenterX s) s

/-- Claim C1: for every fire event `checkHits(laserX)` and every collection of
live bubbles (with their unique ids), exactly the bubbles whose horizontal
span overlaps the laser are removed — a bubble survives iff it is in the old
collection and `|(bubble.x + bubble.radius) - laserX| <= bubble.radius` fails —
all hit bubbles are removed in the one returned update, and the score grows by
exactly the number of hit bubbles (plus zero when none is hit). -/
theorem checkHits_exact (laserX : ℚ) (s : GameState) (b : Bubble)
    (h : (s.bubbles.map Bubble.id).Nodup) :
    (checkHits laserX s).bubbles = s.bubbles.filter (fun c => !(isHit laserX c))
    ∧ (b ∈ (checkHits laserX s).bubbles
        ↔ b ∈ s.bubbles ∧ ¬(|b.x + b.radius - laserX| ≤ b.radius))
    ∧ (checkHits laserX s).score
        = s.score + (s.bubbles.filter (isHit laserX)).length := by
  refine ⟨checkHits_bubbles laserX s h, ?_, checkHits_score laserX s⟩
  rw [checkHits_bubbles laserX s h, List.mem_filter]
  unfold isHit
  simp

/-- Witness for C1 on the spec's own test vector: bubbles at `x = 0` and
`x = 100` (radius 30), laser at 25: the first bubble is hit and removed, the
second survives, the score grows by one. -/
theorem checkHits_exact_witness :
    (checkHits 25 hitTestState).bubbles
        = hitTestState.bubbles.filter (fun c => !(isHit 25 c))
    ∧ ((⟨2, 100, 300, 30⟩ : Bubble) ∈ (checkHits 25 hitTestState).bubbles
        ↔ (⟨2, 100, 300, 30⟩ : Bubble) ∈ hitTestState.bubbles
          ∧ ¬(|(100 : ℚ) + 30 - 25| ≤ 30))
    ∧ (checkHits 25 hitTestState).score
        = hitTestState.score + (hitTestState.bubbles.filter (isHit 25)).length :=
  checkHits_exact 25 hitTestState ⟨2, 100, 300, 30⟩ (by decide)

/-- Claim C7: `resetGame` from any state empties the bubbles, zeroes the
score, restores `timeLeft = 120`, hides the laser, and returns to the Idle
state (`gameStarted = false`, `gameOver = false`), while the gun position is
left exactly where it was. -/
theorem resetGame_clears (s : GameState) :
    (resetGame s).bubbles = []
    ∧ (resetGame s).score = 0
    ∧ (resetGame s).timeLeft = 120
    ∧ (resetGame s).laserVisible = false
    ∧ (resetGame s).gameStarted = false
    ∧ (resetGame s).gameOver = false
    ∧ (resetGame s).gunPosition = s.gunPosition :=
  ⟨rfl, rfl, rfl, rfl, rfl, rfl, rfl⟩

/-- Claim C10: a fire event leaves every non-hit bubble in place with all its
fields unchanged and in its original relative order (the survivors are a
filter, hence a sublist, of the old collection), and it modifies only the
bubble collection, the score and the laser-visible flag: gun position,
remaining time, and the round flags are untouched. -/
theorem fireLaser_frame (s : GameState) (h : (s.bubbles.map Bubble.id).Nodup) :
    (fireLaser s).bubbles = s.bubbles.filter (fun c => !(isHit (gunCenterX s) c))
    ∧ (fireLaser s).bubbles.Sublist s.bubbles
    ∧ (fireLaser s).score = s.score + (s.bubbles.filter (isHit (gunCenterX s))).length
    ∧ (fireLaser s).laserVisible = true
    ∧ (fireLaser s).gunPosition = s.gunPosition
    ∧ (fireLaser s).timeLeft = s.timeLeft
    ∧ (fireLaser s).gameStarted = s.gameStarted
    ∧ (fireLaser s).gameOver = s.gameOver
    ∧ (fireLaser s).bubbleId = s.bubbleId
    ∧ (fireLaser s).intervals = s.intervals := by
  refine ⟨fireLaser_bubbles s h, ?_, fireLaser_score s, rfl, rfl, rfl, rfl, rfl, rfl, rfl⟩
  rw [fireLaser_bubbles s h]
  exact List.filter_sublist s.bubbles

/-- Witness for C10 on the two-bubble test state. -/
theorem fireLaser_frame_witness :
    (fireLaser hitTestState).bubbles
        = hitTestState.bubbles.filter (fun c => !(isHit (gunCenterX hitTestState) c))
    ∧ (fireLaser hitTestState).bubbles.Sublist hitTestState.bubbles
    ∧ (fireLaser hitTestState).score
        = hitTestState.score
          + (hitTestState.bubbles.filter (isHit (gunCenterX hitTestState))).length
    ∧ (fireLaser hitTestState).laserVisible = true
    ∧ (fireLaser hitTestState).gunPosition = hitTestState.gunPosition
    ∧ (fireLaser hitTestState).timeLeft = hitTestState.timeLeft
    ∧ (fireLaser hitTestState).gameStarted = hitTestState.gameStarted
    ∧ (fireLaser hitTestState).gameOver = hitTestState.gameOver
    ∧ (fireLaser hitTestState).bubbleId = hitTestState.bubbleId
    ∧ (fireLaser hitTestState).intervals = hitTestState.intervals :=
  fireLaser_frame hitTestState (by decide)

/-! ## Lemmas about the motion tick -/

/-- The motion updater commuted: moving then culling equals keeping exactly
the bubbles whose decremented height stays above `-60` and moving those. -/
lemma moveBubbles_eq (bs : List Bubble) :
    moveBubbles bs
      = (bs.filter (fun b => decide (b.y - 2 > -60))).map
          (fun b => { b with y := b.y - 2 }) := by
  unfold moveBubbles
  rw [List.filter_map]
  congr 1

/-- While the game is running, `motionFire` applies `moveBubbles` and changes
nothing else. -/
lemma motionFire_run (s : GameState) (hs : s.gameStarted = true)
    (ho : s.gameOver = false) :
    motionFire s = { s with bubbles := moveBubbles s.bubbles } := by
  unfold motionFire
  rw [hs, ho]
  rfl

/-- Claim C3: on a motion tick during a running game, every live bubble has
its `y` decreased by exactly 2 with `id`, `x` and `radius` unchanged;
immediately afterwards every bubble whose resulting `y` stays above `-60` is
still present (moved), every bubble in the result indeed has `y > -60` and
stems from an old bubble via the exact `y - 2` move, and no bubble with
resulting `y <= -60` remains. -/
theorem motionTick_exact (s : GameState) (hs : s.gameStarted = true)
    (ho : s.gameOver = false) :
    (motionFire s).bubbles
      = (s.bubbles.filter (fun b => decide (b.y - 2 > -60))).map
          (fun b => { b with y := b.y - 2 })
    ∧ (∀ b' ∈ (motionFire s).bubbles,
        b'.y > -60 ∧ ∃ b ∈ s.bubbles,
          b'.id = b.id ∧ b'.x = b.x ∧ b'.radius = b.radius ∧ b'.y = b.y - 2)
    ∧ (∀ b ∈ s.bubbles, b.y - 2 > -60 →
        ({ b with y := b.y - 2 } : Bubble) ∈ (motionFire s).bubbles) := by
  rw [motionFire_run s hs ho]
  show moveBubbles s.bubbles = _ ∧ _ ∧ _
  refine ⟨moveBubbles_eq s.bubbles, ?_, ?_⟩
  · intro b' hb'
    constructor
    · have := List.mem_filter.1 hb'
      exact of_decide_eq_true this.2
    · rw [moveBubbles_eq] at hb'
      obtain ⟨b, hb, hbe⟩ := List.mem_map.1 hb'
      exact ⟨b, (List.mem_filter.1 hb).1, by rw [← hbe], by rw [← hbe],
        by rw [← hbe], by rw [← hbe]⟩
  · intro b hb hy
    rw [moveBubbles_eq]
    exact List.mem_map_of_mem _ (List.mem_filter.2 ⟨hb, decide_eq_true hy⟩)

/-- Witness for C3 on a running state with one bubble at `y = 100`. -/
theorem motionTick_exact_witness :
    (motionFire motionTestState).bubbles
      = (motionTestState.bubbles.filter (fun b => decide (b.y - 2 > -60))).map
          (fun b => { b with y := b.y - 2 })
    ∧ (∀ b' ∈ (motionFire motionTestState).bubbles,
        b'.y > -60 ∧ ∃ b ∈ motionTestState.bubbles,
          b'.id = b.id ∧ b'.x = b.x ∧ b'.radius = b.radius ∧ b'.y = b.y - 2)
    ∧ (∀ b ∈ motionTestState.bubbles, b.y - 2 > -60 →
        ({ b with y := b.y - 2 } : Bubble) ∈ (motionFire motionTestState).bubbles) :=
  motionTick_exact motionTestState rfl rfl

/-! ## Lemmas about the spawner -/

/-- Claim C4: whatever value `r` in `[0, 1)` `Math.random()` yields, the bubble
produced by `spawnBubble` has `0 <= x <= screenWidth - 2 * radius`,
`y = screenHeight - 100` and radius 30; it is appended to the collection
carrying the current value of the id counter, which is then incremented; the
counter starts at 1 in the initial state and is reset to 1 by `startGame`. -/
theorem spawnBubble_spec (W H r : ℚ) (s t : GameState)
    (h0 : 0 ≤ r) (h1 : r < 1) (hW : 60 ≤ W) :
    (∃ b : Bubble,
      (spawnBubble W H r s).bubbles = s.bubbles ++ [b]
      ∧ 0 ≤ b.x ∧ b.x ≤ W - 2 * b.radius
      ∧ b.y = H - 100 ∧ b.radius = 30 ∧ b.id = s.bubbleId)
    ∧ (spawnBubble W H r s).bubbleId = s.bubbleId + 1
    ∧ (initialState W).bubbleId = 1
    ∧ (startGame t).bubbleId = 1 := by
  refine ⟨⟨{ id := s.bubbleId, x := r * (W - 30 * 2), y := H - 100, radius := 30 },
    rfl, ?_, ?_, rfl, rfl, rfl⟩, rfl, rfl, rfl⟩
  · have hWpos : (0 : ℚ) ≤ W - 30 * 2 := by linarith
    exact mul_nonneg h0 hWpos
  · show r * (W - 30 * 2) ≤ W - 2 * 30
    have hWpos : (0 : ℚ) ≤ W - 30 * 2 := by linarith
    nlinarith

/-- Witness for C4 at `W = 60`, `H = 800`, `r = 0`: the hypotheses
`0 <= 0`, `0 < 1` and `60 <= 60` hold by explicit terms. -/
theorem spawnBubble_spec_witness :
    (∃ b : Bubble,
      (spawnBubble 60 800 0 (initialState 60)).bubbles
          = (initialState 60).bubbles ++ [b]
      ∧ 0 ≤ b.x ∧ b.x ≤ 60 - 2 * b.radius
      ∧ b.y = 800 - 100 ∧ b.radius = 30 ∧ b.id = (initialState 60).bubbleId)
    ∧ (spawnBubble 60 800 0 (initialState 60)).bubbleId
        = (initialState 60).bubbleId + 1
    ∧ (initialState 60).bubbleId = 1
    ∧ (startGame (initialState 60)).bubbleId = 1 :=
  spawnBubble_spec 60 800 0 (initialState 60) (initialState 60)
    (le_refl 0) zero_lt_one (le_refl 60)

/-! ## Lemmas about the countdown lifecycle -/

/-- Firing the countdown via a known `timerRef`. -/
lemma countdownTick_some (s : GameState) (i : Nat) (h : s.timerRef = some i) :
    countdownTick s
      = if (i, TimerKind.countdown) ∈ s.intervals then countdownBody s else s := by
  unfold countdownTick
  rw [h]

/-- Firing the spawner via a known `bubbleTimerRef`. -/
lemma spawnTick_some (W H r : ℚ) (s : GameState) (i : Nat)
    (h : s.bubbleTimerRef = some i) :
    spawnTick W H r s
      = if (i, TimerKind.spawn) ∈ s.intervals then spawnBubble W H r s else s := by
  unfold spawnTick
  rw [h]

/-- The countdown body while more than one second remains: a plain
decrement. -/
lemma countdownBody_dec (s : GameState) (h : 2 ≤ s.timeLeft) :
    countdownBody s = { s with timeLeft := s.timeLeft - 1 } := by
  unfold countdownBody
  rw [if_neg (by omega)]

/-- The countdown body on its last second: time is set to 0, the round ends,
and both the countdown and the spawn intervals are cleared. -/
lemma countdownBody_stop (s : GameState) (h : s.timeLeft ≤ 1) :
    countdownBody s
      = { s with
          timeLeft := 0
          gameOver := true
          intervals := clearRef s.bubbleTimerRef (clearRef s.timerRef s.intervals) } := by
  unfold countdownBody
  rw [if_pos h]

/-- The countdown interval installed by `startGame` stays scheduled under any
`timeLeft` overwrite. -/
lemma startGame_cd_mem (s : GameState) (n : Nat) :
    (s.nextTimerId + 1, TimerKind.countdown)
      ∈ ({ startGame s with timeLeft := n }).intervals := by
  show _ ∈ s.intervals
    ++ [(s.nextTimerId, TimerKind.spawn), (s.nextTimerId + 1, TimerKind.countdown)]
  exact List.mem_append_right _ (by simp)

/-- Closed form of the first 119 countdown firings after `startGame`: only
`timeLeft` changes, decrementing once per firing. -/
lemma startGame_iterate (s : GameState) (j : Nat) (hj : j ≤ 119) :
    countdownTick^[j] (startGame s) = { startGame s with timeLeft := 120 - j } := by
  induction j with
  | zero =>
    rw [Function.iterate_zero_apply]
    rfl
  | succ j ih =>
    have hj' : j ≤ 119 := Nat.le_of_succ_le hj
    rw [Function.iterate_succ_apply', ih hj',
      countdownTick_some _ (s.nextTimerId + 1) rfl,
      if_pos (startGame_cd_mem s (120 - j)),
      countdownBody_dec _ (by show 2 ≤ 120 - j; omega)]
    rfl

/-- The 120th countdown firing after `startGame`: the round ends with
`timeLeft = 0` and the two intervals scheduled by `startGame` cleared. -/
lemma startGame_tick120 (s : GameState) :
    countdownTick^[120] (startGame s)
      = { startGame s with
          timeLeft := 0
          gameOver := true
          intervals := clearRef (startGame s).bubbleTimerRef
            (clearRef (startGame s).timerRef (startGame s).intervals) } := by
  rw [show countdownTick^[120] (startGame s)
      = countdownTick (countdownTick^[119] (startGame s))
    from Function.iterate_succ_apply' _ 119 _]
  rw [startGame_iterate s 119 (by omega),
    countdownTick_some _ (s.nextTimerId + 1) rfl,
    if_pos (startGame_cd_mem s (120 - 119)),
    countdownBody_stop _ (by show 120 - 119 ≤ 1; omega)]

/-- After the round has ended, the countdown interval is gone, so a further
countdown firing is a no-op. -/
lemma tick120_fixed (s : GameState) :
    countdownTick (countdownTick^[120] (startGame s))
      = countdownTick^[120] (startGame s) := by
  rw [startGame_tick120, countdownTick_some _ (s.nextTimerId + 1) rfl, if_neg ?_]
  intro hmem
  simp [clearRef, startGame] at hmem

/-- After the round has ended, the spawn interval is gone, so a further spawn
firing is a no-op: no new bubble ever appears. -/
lemma tick120_spawn_fixed (W H r : ℚ) (s : GameState) :
    spawnTick W H r (countdownTick^[120] (startGame s))
      = countdownTick^[120] (startGame s) := by
  rw [startGame_tick120, spawnTick_some W H r _ s.nextTimerId rfl, if_neg ?_]
  intro hmem
  simp [clearRef, startGame] at hmem

/-- A countdown firing never increases `timeLeft`. -/
lemma countdownTick_timeLeft_le (s : GameState) :
    (countdownTick s).timeLeft ≤ s.timeLeft := by
  cases h : s.timerRef with
  | none =>
    rw [show countdownTick s = s from by unfold countdownTick; rw [h]]
  | some i =>
    rw [countdownTick_some s i h]
    by_cases hm : (i, TimerKind.countdown) ∈ s.intervals
    · rw [if_pos hm]
      by_cases h1 : s.timeLeft ≤ 1
      · rw [countdownBody_stop s h1]
        show (0 : ℕ) ≤ s.timeLeft
        exact Nat.zero_le _
      · rw [countdownBody_dec s (by omega)]
        show s.timeLeft - 1 ≤ s.timeLeft
        exact Nat.sub_le _ _
    · rw [if_neg hm]

/-- `timeLeft` stays at most 120 along every countdown firing after
`startGame`. -/
lemma startGame_timeLeft_le (s : GameState) (k : Nat) :
    (countdownTick^[k] (startGame s)).timeLeft ≤ 120 := by
  induction k with
  | zero =>
    rw [Function.iterate_zero_apply]
    exact le_refl _
  | succ k ih =>
    rw [Function.iterate_succ_apply']
    exact le_trans (countdownTick_timeLeft_le _) ih

/-- Claim C5: after `startGame`, exactly 120 countdown firings end the round
(`gameOver = true`, `timeLeft = 0`) — before the 120th firing the round is
still on with `timeLeft = 120 - j` — and afterwards neither the countdown nor
the spawn timer fires again (both further firings are no-ops, so no new bubble
appears and `timeLeft` never changes again); throughout, `timeLeft` is a
natural number bounded by 120. -/
theorem roundLifecycle (W H r : ℚ) (s : GameState) (k j : Nat) (hj : j < 120) :
    (countdownTick^[120] (startGame s)).gameOver = true
    ∧ (countdownTick^[120] (startGame s)).timeLeft = 0
    ∧ (countdownTick^[j] (startGame s)).gameOver = false
    ∧ (countdownTick^[j] (startGame s)).timeLeft = 120 - j
    ∧ countdownTick (countdownTick^[120] (startGame s))
        = countdownTick^[120] (startGame s)
    ∧ spawnTick W H r (countdownTick^[120] (startGame s))
        = countdownTick^[120] (startGame s)
    ∧ countdownTick^[k] (countdownTick^[120] (startGame s))
        = countdownTick^[120] (startGame s)
    ∧ (countdownTick^[k] (startGame s)).timeLeft ≤ 120 := by
  have hcl := startGame_iterate s j (by omega)
  refine ⟨?_, ?_, ?_, ?_, tick120_fixed s, tick120_spawn_fixed W H r s,
    Function.iterate_fixed (tick120_fixed s) k, startGame_timeLeft_le s k⟩
  · rw [startGame_tick120]
  · rw [startGame_tick120]
  · rw [hcl]
    rfl
  · rw [hcl]

/-- Witness for C5 at concrete numbers: a real round from the initial state,
checked after 5 of the 120 firings and 3 firings past the end. -/
theorem roundLifecycle_witness :
    (countdownTick^[120] (startGame (initialState 400))).gameOver = true
    ∧ (countdownTick^[120] (startGame (initialState 400))).timeLeft = 0
    ∧ (countdownTick^[5] (startGame (initialState 400))).gameOver = false
    ∧ (countdownTick^[5] (startGame (initialState 400))).timeLeft = 120 - 5
    ∧ countdownTick (countdownTick^[120] (startGame (initialState 400)))
        = countdownTick^[120] (startGame (initialState 400))
    ∧ spawnTick 400 800 0 (countdownTick^[120] (startGame (initialState 400)))
        = countdownTick^[120] (startGame (initialState 400))
    ∧ countdownTick^[3] (countdownTick^[120] (startGame (initialState 400)))
        = countdownTick^[120] (startGame (initialState 400))
    ∧ (countdownTick^[3] (startGame (initialState 400))).timeLeft ≤ 120 :=
  roundLifecycle 400 800 0 (initialState 400) 3 5 (by decide)

/-! ## Lemmas about the gesture handlers -/

/-- A sequence of move events touches only the gun position: the tap-tracking
refs and the round flags are untouched. -/
lemma applyMoves_fields (W : ℚ) (ms : List ℚ) (s : GameState) :
    (applyMoves W ms s).tapStartTime = s.tapStartTime
    ∧ (applyMoves W ms s).tapStartX = s.tapStartX
    ∧ (applyMoves W ms s).gameStarted = s.gameStarted
    ∧ (applyMoves W ms s).gameOver = s.gameOver := by
  induction ms generalizing s with
  | nil => exact ⟨rfl, rfl, rfl, rfl⟩
  | cons m ms ih => exact ih (panMove W m s)

/-- Claim C2: for a gesture `grant(x0, t0)`, any number of moves, and
`release(x, t1)`, the laser is fired exactly once iff the game is running
(`gameStarted` and not `gameOver`) and the duration `t1 - t0` is under 200 ms
and the displacement `|x - x0|` is under 10 px; in every other case — too
slow, too far, or outside the running state — it is not fired. -/
theorem tapClassification (W x0 x : ℚ) (t0 t1 : Int) (ms : List ℚ)
    (s : GameState) :
    (panRelease x t1 (applyMoves W ms (panGrant W x0 t0 s))).2 = true
      ↔ (s.gameStarted = true ∧ s.gameOver = false
          ∧ t1 - t0 < 200 ∧ |x - x0| < 10) := by
  obtain ⟨h1, h2, h3, h4⟩ := applyMoves_fields W ms (panGrant W x0 t0 s)
  have ht : (applyMoves W ms (panGrant W x0 t0 s)).tapStartTime = t0 := h1
  have hx : (applyMoves W ms (panGrant W x0 t0 s)).tapStartX = x0 := h2
  have hgs : (applyMoves W ms (panGrant W x0 t0 s)).gameStarted = s.gameStarted := h3
  have hgo : (applyMoves W ms (panGrant W x0 t0 s)).gameOver = s.gameOver := h4
  unfold panRelease handleTap TAP_MAX_DURATION TAP_MAX_MOVEMENT
  rw [ht, hx, hgs, hgo]
  cases hgs2 : s.gameStarted <;> cases hgo2 : s.gameOver <;>
    by_cases hd : t1 - t0 < 200 <;> by_cases hm : |x - x0| < 10 <;>
      simp [hd, hm]

/-! ## Lemmas about the gun clamp -/

/-- The clamp `max(0, min(newX, screenWidth - gunWidth))` lands in
`[0, screenWidth - 60]` whenever the screen is at least as wide as the gun. -/
lemma clampGun_bounds (W z : ℚ) (hW : 60 ≤ W) :
    0 ≤ clampGun W z ∧ clampGun W z ≤ W - 60 := by
  unfold clampGun gunWidth
  refine ⟨le_max_left 0 _, max_le (by linarith) (min_le_right _ _)⟩

lemma fireLaser_gunPosition (s : GameState) :
    (fireLaser s).gunPosition = s.gunPosition := rfl

lemma handleTap_gunPosition (s : GameState) :
    ((handleTap s).1).gunPosition = s.gunPosition := by
  unfold handleTap
  split <;> rfl

lemma panRelease_gunPosition (x : ℚ) (t : Int) (s : GameState) :
    ((panRelease x t s).1).gunPosition = s.gunPosition := by
  show ((if t - s.tapStartTime < TAP_MAX_DURATION
      ∧ |x - s.tapStartX| < TAP_MAX_MOVEMENT
    then handleTap s else (s, false)).1).gunPosition = s.gunPosition
  split
  · exact handleTap_gunPosition s
  · rfl

lemma countdownBody_gunPosition (s : GameState) :
    (countdownBody s).gunPosition = s.gunPosition := by
  unfold countdownBody
  split <;> rfl

lemma countdownTick_gunPosition (s : GameState) :
    (countdownTick s).gunPosition = s.gunPosition := by
  cases h : s.timerRef with
  | none => rw [show countdownTick s = s from by unfold countdownTick; rw [h]]
  | some i =>
    rw [countdownTick_some s i h]
    split
    · exact countdownBody_gunPosition s
    · rfl

lemma spawnTick_gunPosition (W H r : ℚ) (s : GameState) :
    (spawnTick W H r s).gunPosition = s.gunPosition := by
  cases h : s.bubbleTimerRef with
  | none => rw [show spawnTick W H r s = s from by unfold spawnTick; rw [h]]
  | some i =>
    rw [spawnTick_some W H r s i h]
    split <;> rfl

lemma motionFire_gunPosition (s : GameState) :
    (motionFire s).gunPosition = s.gunPosition := by
  unfold motionFire
  split <;> rfl

lemma laserTimeoutFire_gunPosition (i : Nat) (s : GameState) :
    (laserTimeoutFire i s).gunPosition = s.gunPosition := by
  unfold laserTimeoutFire
  split <;> rfl

/-- Every event either leaves the gun where it was or stores a clamped
value. -/
lemma step_gunPosition (W H : ℚ) (e : GEvent) (s : GameState) :
    (step W H e s).gunPosition = s.gunPosition
    ∨ ∃ z, (step W H e s).gunPosition = clampGun W z := by
  cases e with
  | grantE x0 t => exact Or.inr ⟨x0 - gunWidth / 2, rfl⟩
  | moveE x => exact Or.inr ⟨x - gunWidth / 2, rfl⟩
  | releaseE x t => exact Or.inl (panRelease_gunPosition x t s)
  | startE => exact Or.inl rfl
  | resetE => exact Or.inl rfl
  | tapE => exact Or.inl (handleTap_gunPosition s)
  | countdownE => exact Or.inl (countdownTick_gunPosition s)
  | spawnE r => exact Or.inl (spawnTick_gunPosition W H r s)
  | motionE => exact Or.inl (motionFire_gunPosition s)
  | laserHideE i => exact Or.inl (laserTimeoutFire_gunPosition i s)

/-- Claim C6: after any grant or move event with any incoming coordinate the
stored gun position lies in `[0, screenWidth - gunWidth]`; the initial
centred position lies in that interval, and every event of the system
preserves membership in it, so the clamp invariant holds in every reachable
state. -/
theorem gunClampInvariant (W H x0 x : ℚ) (t : Int) (e : GEvent)
    (s su : GameState) (hW : 60 ≤ W)
    (h1 : 0 ≤ su.gunPosition) (h2 : su.gunPosition ≤ W - 60) :
    (0 ≤ (panGrant W x0 t s).gunPosition
      ∧ (panGrant W x0 t s).gunPosition ≤ W - 60)
    ∧ (0 ≤ (panMove W x s).gunPosition
      ∧ (panMove W x s).gunPosition ≤ W - 60)
    ∧ (0 ≤ (initialState W).gunPosition
      ∧ (initialState W).gunPosition ≤ W - 60)
    ∧ (0 ≤ (step W H e su).gunPosition
      ∧ (step W H e su).gunPosition ≤ W - 60) := by
  refine ⟨clampGun_bounds W (x0 - gunWidth / 2) hW,
    clampGun_bounds W (x - gunWidth / 2) hW, ?_, ?_⟩
  · show 0 ≤ W / 2 - gunWidth / 2 ∧ W / 2 - gunWidth / 2 ≤ W - 60
    unfold gunWidth
    constructor <;> linarith
  · rcases step_gunPosition W H e su with h | ⟨z, hz⟩
    · rw [h]
      exact ⟨h1, h2⟩
    · rw [hz]
      exact clampGun_bounds W z hW

/-- Witness for C6 at `W = 60` with the gun already at 0: a grant at 5, a
move far off screen at 1000, the initial state, and a start event. -/
theorem gunClampInvariant_witness :
    (0 ≤ (panGrant 60 5 0 gunWitState).gunPosition
      ∧ (panGrant 60 5 0 gunWitState).gunPosition ≤ 60 - 60)
    ∧ (0 ≤ (panMove 60 1000 gunWitState).gunPosition
      ∧ (panMove 60 1000 gunWitState).gunPosition ≤ 60 - 60)
    ∧ (0 ≤ (initialState 60).gunPosition
      ∧ (initialState 60).gunPosition ≤ 60 - 60)
    ∧ (0 ≤ (step 60 800 GEvent.startE gunWitState).gunPosition
      ∧ (step 60 800 GEvent.startE gunWitState).gunPosition ≤ 60 - 60) :=
  gunClampInvariant 60 800 5 1000 0 GEvent.startE gunWitState gunWitState
    (le_refl 60) (by exact le_refl 0) (by exact (sub_self (60 : ℚ)).symm.le)

/-! ## Cancellation behaviour when a round stops -/

/-- Claim C8, evaluated at a failing input: in a real round (start from the
initial 400-px-wide screen, then one laser shot, which schedules laser-hide
timeout 2), `resetGame` cancels the spawn and countdown intervals and stops
the motion effect (`gameStarted` becomes false), but the pending laser-hide
timeout survives the reset: it is still pending with its ref intact, and it
can still fire afterwards — a callback scheduled during the old round running,
and writing `laserVisible`, after the reset. -/
theorem resetLeavesLaserTimeout :
    (resetGame firedState).intervals = []
    ∧ (resetGame firedState).gameStarted = false
    ∧ (resetGame firedState).pendingTimeouts = [2]
    ∧ (resetGame firedState).laserTimeoutRef = some 2
    ∧ (laserTimeoutFire 2 (resetGame firedState)).pendingTimeouts = []
    ∧ (laserTimeoutFire 2 (resetGame firedState)).laserVisible = false := by
  decide

/-! ## Starting while already running -/

/-- Claim C9, counterexample: starting from the freshly started round (a
`Running` state with exactly the two intervals 0 and 1 scheduled), a second
`startGame` leaves four intervals scheduled, among them the two from before
the call — so the call is neither a no-op (the interval set changed) nor a
full restart (a fresh round has exactly two scheduled intervals), and timers
from before the call are still active. -/
theorem doubleStartLeaksTimers :
    (startGame (initialState 400)).gameStarted = true
    ∧ (startGame (initialState 400)).gameOver = false
    ∧ (startGame (initialState 400)).intervals.length = 2
    ∧ (startGame (startGame (initialState 400))).intervals.length = 4
    ∧ (0, TimerKind.spawn) ∈ (startGame (startGame (initialState 400))).intervals
    ∧ (1, TimerKind.countdown) ∈ (startGame (startGame (initialState 400))).intervals := by
  decide

/-- Claim C9 (amended): `startGame` invoked in any state — including while
already Running — performs the reactive-state reset of a full restart
(running flags, score 0, time 120, empty bubbles, laser hidden, id counter 1)
and schedules two fresh intervals held by the refs, but cancels nothing:
every interval scheduled before the call is still scheduled after it. -/
theorem startGame_restart (s : GameState) (i : Nat) (k : TimerKind)
    (h : (i, k) ∈ s.intervals) :
    (startGame s).gameStarted = true
    ∧ (startGame s).gameOver = false
    ∧ (startGame s).score = 0
    ∧ (startGame s).timeLeft = 120
    ∧ (startGame s).bubbles = []
    ∧ (startGame s).laserVisible = false
    ∧ (startGame s).bubbleId = 1
    ∧ (i, k) ∈ (startGame s).intervals
    ∧ (startGame s).bubbleTimerRef = some s.nextTimerId
    ∧ (startGame s).timerRef = some (s.nextTimerId + 1)
    ∧ (s.nextTimerId, TimerKind.spawn) ∈ (startGame s).intervals
    ∧ (s.nextTimerId + 1, TimerKind.countdown) ∈ (startGame s).intervals := by
  refine ⟨rfl, rfl, rfl, rfl, rfl, rfl, rfl, ?_, rfl, rfl, ?_, ?_⟩
  · show (i, k) ∈ s.intervals ++ _
    exact List.mem_append_left _ h
  · show _ ∈ s.intervals
      ++ [(s.nextTimerId, TimerKind.spawn), (s.nextTimerId + 1, TimerKind.countdown)]
    exact List.mem_append_right _ (by simp)
  · show _ ∈ s.intervals
      ++ [(s.nextTimerId, TimerKind.spawn), (s.nextTimerId + 1, TimerKind.countdown)]
    exact List.mem_append_right _ (by simp)

/-- Witness for the amended C9, on a state with a stray interval `(5, spawn)`
scheduled. -/
theorem startGame_restart_witness :
    (startGame strayIntervalState).gameStarted = true
    ∧ (startGame strayIntervalState).gameOver = false
    ∧ (startGame strayIntervalState).score = 0
    ∧ (startGame strayIntervalState).timeLeft = 120
    ∧ (startGame strayIntervalState).bubbles = []
    ∧ (startGame strayIntervalState).laserVisible = false
    ∧ (startGame strayIntervalState).bubbleId = 1
    ∧ (5, TimerKind.spawn) ∈ (startGame strayIntervalState).intervals
    ∧ (startGame strayIntervalState).bubbleTimerRef
        = some strayIntervalState.nextTimerId
    ∧ (startGame strayIntervalState).timerRef
        = some (strayIntervalState.nextTimerId + 1)
    ∧ (strayIntervalState.nextTimerId, TimerKind.spawn)
        ∈ (startGame strayIntervalState).intervals
    ∧ (strayIntervalState.nextTimerId + 1, TimerKind.countdown)
        ∈ (startGame strayIntervalState).intervals :=
  startGame_restart strayIntervalState 5 TimerKind.spawn (by decide)
